import Mathlib

/-!
Verification of the add-on package signing pipeline
(`lib/crypto/packaged.py` of addons-server).

The Python module is shallowly embedded: file contents are byte lists,
the storage backend is a map from paths to optional byte lists, and the
external collaborators (the `JarExtractor` archive library, `requests`,
the certificate parser) are oracles bundled in a `World` structure.
Each Python function becomes a Lean function returning its result
together with the new storage state and a trace of observable events
(network calls, temporary-file writes, renames, record updates), so
that atomicity and ordering properties can be stated.
-/

namespace Packaged

/-- File contents are modelled as byte lists. -/
abbrev Bytes := List Nat

/-- The storage backend: a map from file paths to contents
(`none` means no file at that path). -/
abbrev Storage := String → Option Bytes

/-- `amo.STATUS_PUBLIC`: the fully-reviewed trust status.  Only its
(in)equality with a file's status matters to the signing module. -/
def STATUS_PUBLIC : Nat := 4

/-- `amo.STATUS_UNREVIEWED`: an example non-public trust status. -/
def STATUS_UNREVIEWED : Nat := 1

/-- The Django settings consumed by the module: the two signing-server
base URLs (the empty string models an unconfigured, falsy setting) and
the request timeout. -/
structure Settings where
  SIGNING_SERVER : String
  PRELIMINARY_SIGNING_SERVER : String
  SIGNING_SERVER_TIMEOUT : Nat
deriving DecidableEq

/-- The slice of a `File` model object read by the signing module:
primary key, review status, canonical path, eligibility flag
(`can_be_signed()`), the stored certificate serial number, and the
owning version's addon slug and version string. -/
structure FileObj where
  pk : Nat
  status : Nat
  file_path : String
  can_be_signed : Bool
  cert_serial_num : Option Nat
  addon_slug : String
  version_version : String
deriving DecidableEq

/-- A `Version` model object: primary key and its list of files. -/
structure Version where
  pk : Nat
  all_files : List FileObj
deriving DecidableEq

/-- An HTTP response from the signing service. -/
structure HttpResponse where
  status_code : Nat
  reason : String
  content : String
deriving DecidableEq

/-- Outcome of `requests.post` to the signing service: an
`HTTPError` exception, some other exception (timeout, connection
failure), or a response object. -/
inductive PostResult where
  | httpError (statusStr : String) (errStr : String)
  | otherExn
  | response (r : HttpResponse)
deriving DecidableEq

/-- A raised Python exception, as seen by callers: either a
`SigningError` with its message, or any other exception type
(e.g. `KeyError`/`ValueError` from decoding the response body). -/
inductive PyError where
  | signingError (msg : String)
  | otherError
deriving DecidableEq

instance {ε α : Type} [DecidableEq ε] [DecidableEq α] :
    DecidableEq (Except ε α)
  | .error x, .error y => decidable_of_iff (x = y) (by simp)
  | .ok x, .ok y => decidable_of_iff (x = y) (by simp)
  | .error _, .ok _ => isFalse (by simp)
  | .ok _, .error _ => isFalse (by simp)

/-- Observable events of one signing run, in order of occurrence. -/
inductive Event where
  | signFileCall (pk : Nat)
  | extractAttempt
  | networkCall (endpoint : String)
  | writeTemp (path : String)
  | rename (src dst : String)
  | updateRecord (serial : Nat)
deriving DecidableEq

/-- True exactly on `rename` events. -/
def Event.isRename : Event → Bool
  | .rename _ _ => true
  | _ => false

/-- True exactly on `networkCall` events. -/
def Event.isNetworkCall : Event → Bool
  | .networkCall _ => true
  | _ => false

/-- The external collaborators, fixed for a run:
`extract b` is `JarExtractor` on archive bytes `b` (`none` = raises,
`some sigs` = succeeds with manifest `str(jar.signatures) = sigs`);
`post` is `requests.post endpoint timeout addon_id sigs`;
`decode_zigbert c` is `b64decode(json.loads(c)['zigbert.rsa'])`
(`none` = raises);
`get_serial p` is `get_signature_serial_number(p)` (`none` = raises);
`make_signed b sigs p` is `jar.make_signed(p)` producing the signed
archive bytes from original bytes `b` (`none` = raises). -/
structure World where
  extract : Bytes → Option String
  post : String → Nat → String → String → PostResult
  decode_zigbert : String → Option Bytes
  get_serial : Bytes → Option Nat
  make_signed : Bytes → String → Bytes → Option Bytes

/-- Write bytes `b` at path `p`. -/
def setFile (st : Storage) (p : String) (b : Bytes) : Storage :=
  fun q => if q = p then some b else st q

/-- `os.rename src dst`: `dst` now holds what `src` held, `src` is gone. -/
def renameFile (st : Storage) (src dst : String) : Storage :=
  fun q => if q = src then none else if q = dst then st src else st q

/-- `get_endpoint(file_obj)`: choose the signing server by review
status, return `none` when the chosen server setting is falsy,
otherwise the server followed by `/1.0/sign_addon`. -/
def get_endpoint (s : Settings) (status : Nat) : Option String :=
  let server :=
    if status ≠ STATUS_PUBLIC then s.PRELIMINARY_SIGNING_SERVER
    else s.SIGNING_SERVER
  if server = "" then none
  else some (server ++ "/1.0/sign_addon")

/-- Result of `call_signing` / `sign_file`: the returned value
(`none` = returned `None`, `some n` = serial number `n`) or a raised
exception, the storage state after the call, and the event trace. -/
structure CallOutcome where
  result : Except PyError (Option Nat)
  storage : Storage
  events : List Event

/-- `call_signing(file_obj)`, with `temp` the fresh name produced by
`tempfile.NamedTemporaryFile`.  Follows the Python control flow step
by step: absent endpoint → return `None`; extraction failure →
`SigningError`; network failure or non-200 status → `SigningError`;
body decoding failure → uncaught exception; serial extraction or
`make_signed` failure → `SigningError`; otherwise write the signed
archive to `temp`, `os.rename(temp, file_path)`, return the serial. -/
def call_signing (w : World) (s : Settings) (st : Storage)
    (f : FileObj) (temp : String) : CallOutcome :=
  match get_endpoint s f.status with
  | none => ⟨.ok none, st, []⟩
  | some endpoint =>
    match st f.file_path with
    | none =>
      ⟨.error (.signingError "Archive extraction failed. Bad archive?"),
        st, [.extractAttempt]⟩
    | some orig =>
      match w.extract orig with
      | none =>
        ⟨.error (.signingError "Archive extraction failed. Bad archive?"),
          st, [.extractAttempt]⟩
      | some sigs =>
        let addon_id := f.addon_slug ++ "-" ++ f.version_version
        match w.post endpoint s.SIGNING_SERVER_TIMEOUT addon_id sigs with
        | .httpError statusStr errStr =>
          ⟨.error (.signingError
              ("Posting to add-on signing failed: " ++ statusStr ++ ", "
                ++ errStr)),
            st, [.extractAttempt, .networkCall endpoint]⟩
        | .otherExn =>
          ⟨.error (.signingError "Posting to add-on signing failed"),
            st, [.extractAttempt, .networkCall endpoint]⟩
        | .response r =>
          if r.status_code ≠ 200 then
            ⟨.error (.signingError
                ("Posting to add-on signing failed " ++ r.reason)),
              st, [.extractAttempt, .networkCall endpoint]⟩
          else
            match w.decode_zigbert r.content with
            | none =>
              ⟨.error .otherError, st,
                [.extractAttempt, .networkCall endpoint]⟩
            | some pkcs7 =>
              match w.get_serial pkcs7 with
              | none =>
                ⟨.error (.signingError "Addon signing failed"), st,
                  [.extractAttempt, .networkCall endpoint]⟩
              | some serial =>
                match w.make_signed orig sigs pkcs7 with
                | none =>
                  ⟨.error (.signingError "Addon signing failed"), st,
                    [.extractAttempt, .networkCall endpoint]⟩
                | some signedBytes =>
                  ⟨.ok (some serial),
                    renameFile (setFile st temp signedBytes) temp f.file_path,
                    [.extractAttempt, .networkCall endpoint,
                      .writeTemp temp, .rename temp f.file_path]⟩

/-- Result of `sign_file`: as `CallOutcome`, plus the file record's
`cert_serial_num` field after the call. -/
structure FileOutcome where
  result : Except PyError (Option Nat)
  storage : Storage
  record : Option Nat
  events : List Event

/-- `sign_file(file_obj)`: reject ineligible files, otherwise run
`call_signing` and, when it returns a truthy serial number, update the
record (`file_obj.update(cert_serial_num=...)`). -/
def sign_file (w : World) (s : Settings) (st : Storage)
    (f : FileObj) (temp : String) : FileOutcome :=
  if f.can_be_signed = false then
    ⟨.error (.signingError
        ("Attempt to sign a non-xpi file " ++ toString f.pk ++ ".")),
      st, f.cert_serial_num, []⟩
  else
    let c := call_signing w s st f temp
    match c.result with
    | .error e => ⟨.error e, c.storage, f.cert_serial_num, c.events⟩
    | .ok none => ⟨.ok none, c.storage, f.cert_serial_num, c.events⟩
    | .ok (some serial) =>
      if serial ≠ 0 then
        ⟨.ok (some serial), c.storage, some serial,
          c.events ++ [.updateRecord serial]⟩
      else
        ⟨.ok (some serial), c.storage, f.cert_serial_num, c.events⟩

/-- Result of the `sign` task: the returned value or raised exception,
the final storage state, and the concatenated event trace. -/
structure TaskOutcome where
  result : Except PyError Unit
  storage : Storage
  events : List Event
deriving Inhabited

/-- The body of `sign`'s loop over the eligible files: each iteration
invokes `sign_file` with the next fresh temporary name; an exception
propagates immediately, ending the loop. -/
def sign_loop (w : World) (s : Settings) :
    List FileObj → List String → Storage → TaskOutcome
  | [], _, st => ⟨.ok (), st, []⟩
  | f :: rest, temps, st =>
    let o := sign_file w s st f (temps.headD "")
    match o.result with
    | .error e => ⟨.error e, o.storage, .signFileCall f.pk :: o.events⟩
    | .ok _ =>
      let t := sign_loop w s rest temps.tail o.storage
      ⟨t.result, t.storage, .signFileCall f.pk :: o.events ++ t.events⟩

/-- The `sign(version)` task: raise `SigningError('No file')` when the
version owns no files, otherwise sign every file that
`can_be_signed()`, in order. -/
def sign (w : World) (s : Settings) (v : Version) (temps : List String)
    (st : Storage) : TaskOutcome :=
  if v.all_files.isEmpty then
    ⟨.error (.signingError "No file"), st, []⟩
  else
    sign_loop w s (v.all_files.filter (·.can_be_signed)) temps st

/-! ## Concrete test fixtures used by the witness theorems -/

/-- Settings with both signing servers configured. -/
def sBoth : Settings := ⟨"https://sv", "https://pre", 5⟩

/-- A public, signable file at path `a.xpi`. -/
def fPub : FileObj := ⟨1, STATUS_PUBLIC, "a.xpi", true, none, "slug-a", "1.0"⟩

/-- A second public, signable file at path `b.xpi`. -/
def fPub2 : FileObj := ⟨2, STATUS_PUBLIC, "b.xpi", true, none, "slug-b", "1.0"⟩

/-- A file that is not structurally eligible for signing. -/
def fIneligible : FileObj := ⟨3, STATUS_PUBLIC, "c.xpi", false, none, "slug-c", "1.0"⟩

/-- A storage state holding archives at `a.xpi` and `b.xpi`. -/
def stAB : Storage :=
  fun p => if p = "a.xpi" then some [1, 2]
    else if p = "b.xpi" then some [3, 4] else none

/-- A world where every step of the signing pipeline succeeds,
issuing serial number 42 and signed archive bytes `[1, 2, 3]`. -/
def wOK : World where
  extract := fun b => if b = [1, 2] then some "SIGS" else none
  post := fun _ _ _ _ => .response ⟨200, "OK", "BODY"⟩
  decode_zigbert := fun c => if c = "BODY" then some [9, 9] else none
  get_serial := fun p => if p = [9, 9] then some 42 else none
  make_signed := fun b g p =>
    if b = [1, 2] ∧ g = "SIGS" ∧ p = [9, 9] then some [1, 2, 3] else none

/-- A world whose archive extractor always fails. -/
def wBadArchive : World where
  extract := fun _ => none
  post := fun _ _ _ _ => .otherExn
  decode_zigbert := fun _ => none
  get_serial := fun _ => none
  make_signed := fun _ _ _ => none

/-- A world whose signing service answers HTTP 500. -/
def w500 : World where
  extract := fun b => if b = [1, 2] then some "SIGS" else none
  post := fun _ _ _ _ => .response ⟨500, "INTERNAL SERVER ERROR", ""⟩
  decode_zigbert := fun _ => none
  get_serial := fun _ => none
  make_signed := fun _ _ _ => none

/-- A version owning the two signable public files. -/
def vAB : Version := ⟨7, [fPub, fPub2]⟩

/-- A version owning no files. -/
def vEmpty : Version := ⟨8, []⟩

/-! ## Claim theorems -/

/-- C7: endpoint resolution is a pure function of the artifact's trust
status: a public artifact resolves to the default signing server's
endpoint, and an artifact with any non-public status (for example
unreviewed) resolves to the preliminary signing server's endpoint,
never the default one; the resolved URL is the selected server
followed by `/1.0/sign_addon`. -/
theorem endpoint_pure_function_of_status (s : Settings) (status : Nat) :
    (status = STATUS_PUBLIC → s.SIGNING_SERVER ≠ "" →
      get_endpoint s status = some (s.SIGNING_SERVER ++ "/1.0/sign_addon"))
    ∧ (status ≠ STATUS_PUBLIC → s.PRELIMINARY_SIGNING_SERVER ≠ "" →
      get_endpoint s status =
        some (s.PRELIMINARY_SIGNING_SERVER ++ "/1.0/sign_addon"))
    ∧ (status = STATUS_UNREVIEWED → s.PRELIMINARY_SIGNING_SERVER ≠ "" →
      get_endpoint s status =
        some (s.PRELIMINARY_SIGNING_SERVER ++ "/1.0/sign_addon")) := by
  refine ⟨fun h1 h2 => ?_, fun h1 h2 => ?_, fun h1 h2 => ?_⟩
  · simp [get_endpoint, h1, h2]
  · simp [get_endpoint, h1, h2]
  · have : status ≠ STATUS_PUBLIC := by
      simp [h1, STATUS_UNREVIEWED, STATUS_PUBLIC]
    simp [get_endpoint, this, h2]

/-- Witness for C7 at concrete settings: a public file routes to the
default server, an unreviewed file routes to the preliminary server. -/
theorem endpoint_pure_function_of_status_witness :
    get_endpoint sBoth STATUS_PUBLIC = some "https://sv/1.0/sign_addon"
    ∧ get_endpoint sBoth STATUS_UNREVIEWED =
        some "https://pre/1.0/sign_addon" :=
  ⟨(endpoint_pure_function_of_status sBoth STATUS_PUBLIC).1 rfl (by decide),
    (endpoint_pure_function_of_status sBoth STATUS_UNREVIEWED).2.2 rfl
      (by decide)⟩

/-- C10: for a public artifact the resolved endpoint is independent of
the preliminary signing server setting, and for a non-public artifact
it is independent of the default signing server setting; a public
artifact resolves to no endpoint whenever the default server is
unconfigured (even if the preliminary server is configured), and vice
versa. -/
theorem endpoint_noninterference (s1 s2 : Settings) (status : Nat) :
    (status = STATUS_PUBLIC → s1.SIGNING_SERVER = s2.SIGNING_SERVER →
      get_endpoint s1 status = get_endpoint s2 status)
    ∧ (status ≠ STATUS_PUBLIC →
      s1.PRELIMINARY_SIGNING_SERVER = s2.PRELIMINARY_SIGNING_SERVER →
      get_endpoint s1 status = get_endpoint s2 status)
    ∧ (status = STATUS_PUBLIC → s1.SIGNING_SERVER = "" →
      get_endpoint s1 status = none)
    ∧ (status ≠ STATUS_PUBLIC → s1.PRELIMINARY_SIGNING_SERVER = "" →
      get_endpoint s1 status = none) := by
  refine ⟨fun h1 h2 => ?_, fun h1 h2 => ?_, fun h1 h2 => ?_,
    fun h1 h2 => ?_⟩ <;> simp [get_endpoint, h1, h2]

/-- Witness for C10: with the default server unconfigured and the
preliminary server configured, a public file resolves to no endpoint;
and two settings differing only in the preliminary server resolve a
public file identically. -/
theorem endpoint_noninterference_witness :
    get_endpoint ⟨"", "https://pre", 5⟩ STATUS_PUBLIC = none
    ∧ get_endpoint ⟨"https://sv", "https://preA", 5⟩ STATUS_PUBLIC =
        get_endpoint ⟨"https://sv", "https://preB", 5⟩ STATUS_PUBLIC :=
  ⟨(endpoint_noninterference ⟨"", "https://pre", 5⟩
      ⟨"", "https://pre", 5⟩ STATUS_PUBLIC).2.2.1 rfl rfl,
    (endpoint_noninterference ⟨"https://sv", "https://preA", 5⟩
      ⟨"https://sv", "https://preB", 5⟩ STATUS_PUBLIC).1 rfl rfl⟩

/-- C9: for every artifact that is not structurally eligible for
signing, `sign_file` raises a `SigningError` at the eligibility gate,
before endpoint resolution, extraction, or any network call (the
event trace is empty), and performs no mutation of storage or of the
record. -/
theorem ineligible_rejected_at_gate (w : World) (s : Settings)
    (st : Storage) (f : FileObj) (temp : String)
    (h : f.can_be_signed = false) :
    (sign_file w s st f temp).result =
      .error (.signingError
        ("Attempt to sign a non-xpi file " ++ toString f.pk ++ "."))
    ∧ (sign_file w s st f temp).storage = st
    ∧ (sign_file w s st f temp).record = f.cert_serial_num
    ∧ (sign_file w s st f temp).events = [] := by
  simp [sign_file, h]

/-- Witness for C9 at a concrete ineligible file. -/
theorem ineligible_rejected_at_gate_witness :
    fIneligible.can_be_signed = false
    ∧ ((sign_file wOK sBoth stAB fIneligible "t").result =
        .error (.signingError "Attempt to sign a non-xpi file 3.")
      ∧ (sign_file wOK sBoth stAB fIneligible "t").storage = stAB
      ∧ (sign_file wOK sBoth stAB fIneligible "t").record =
          fIneligible.cert_serial_num
      ∧ (sign_file wOK sBoth stAB fIneligible "t").events = []) :=
  ⟨rfl, ineligible_rejected_at_gate wOK sBoth stAB fIneligible "t" rfl⟩

/-- C8: for every (eligible) artifact for which no signing endpoint is
configured, `sign_file` completes without raising, returns no serial
number, leaves the record's serial number field untouched, and leaves
the storage byte-identical. -/
theorem no_endpoint_clean_noop (w : World) (s : Settings) (st : Storage)
    (f : FileObj) (temp : String) (helig : f.can_be_signed = true)
    (hep : get_endpoint s f.status = none) :
    (sign_file w s st f temp).result = .ok none
    ∧ (sign_file w s st f temp).storage = st
    ∧ (sign_file w s st f temp).record = f.cert_serial_num
    ∧ (sign_file w s st f temp).events = [] := by
  simp [sign_file, helig, call_signing, hep]

/-- Witness for C8: with no server configured at all, signing the
eligible public file is a clean no-op. -/
theorem no_endpoint_clean_noop_witness :
    fPub.can_be_signed = true
    ∧ get_endpoint ⟨"", "", 5⟩ fPub.status = none
    ∧ ((sign_file wOK ⟨"", "", 5⟩ stAB fPub "t").result = .ok none
      ∧ (sign_file wOK ⟨"", "", 5⟩ stAB fPub "t").storage = stAB
      ∧ (sign_file wOK ⟨"", "", 5⟩ stAB fPub "t").record =
          fPub.cert_serial_num
      ∧ (sign_file wOK ⟨"", "", 5⟩ stAB fPub "t").events = []) :=
  ⟨rfl, rfl, no_endpoint_clean_noop wOK ⟨"", "", 5⟩ stAB fPub "t" rfl rfl⟩

/-- C4: for every artifact whose archive extraction fails (unreadable
or malformed archive), `call_signing` raises
`SigningError("Archive extraction failed. Bad archive?")` before any
network call occurs (the trace holds no network-call event), and the
storage — in particular the canonical file path — is unchanged. -/
theorem extraction_failure_before_network (w : World) (s : Settings)
    (st : Storage) (f : FileObj) (temp : String) (ep : String)
    (hep : get_endpoint s f.status = some ep)
    (hfail : ∀ orig, st f.file_path = some orig → w.extract orig = none) :
    (call_signing w s st f temp).result =
      .error (.signingError "Archive extraction failed. Bad archive?")
    ∧ (call_signing w s st f temp).events.filter Event.isNetworkCall = []
    ∧ (call_signing w s st f temp).storage = st := by
  cases horig : st f.file_path with
  | none => simp [call_signing, hep, horig, Event.isNetworkCall]
  | some orig =>
    simp [call_signing, hep, horig, hfail orig horig, Event.isNetworkCall]

/-- Witness for C4 at a concrete file whose archive the extractor
rejects. -/
theorem extraction_failure_before_network_witness :
    get_endpoint sBoth fPub.status = some "https://sv/1.0/sign_addon"
    ∧ (∀ orig, stAB fPub.file_path = some orig →
        wBadArchive.extract orig = none)
    ∧ ((call_signing wBadArchive sBoth stAB fPub "t").result =
        .error (.signingError "Archive extraction failed. Bad archive?")
      ∧ (call_signing wBadArchive sBoth stAB fPub "t").events.filter
          Event.isNetworkCall = []
      ∧ (call_signing wBadArchive sBoth stAB fPub "t").storage = stAB) :=
  ⟨rfl, fun _ _ => rfl,
    extraction_failure_before_network wBadArchive sBoth stAB fPub "t"
      "https://sv/1.0/sign_addon" rfl (fun _ _ => rfl)⟩

/-- C5: for every artifact, when the signing service responds with a
non-2xx HTTP status (for example 500), `call_signing` raises a
`SigningError` whose message carries the HTTP status reason, the
storage is unchanged, and no serial number is returned. -/
theorem non_200_raises_with_reason (w : World) (s : Settings)
    (st : Storage) (f : FileObj) (temp : String) (ep : String)
    (orig : Bytes) (sigs : String) (r : HttpResponse)
    (hep : get_endpoint s f.status = some ep)
    (horig : st f.file_path = some orig)
    (hext : w.extract orig = some sigs)
    (hpost : w.post ep s.SIGNING_SERVER_TIMEOUT
      (f.addon_slug ++ "-" ++ f.version_version) sigs = .response r)
    (hstatus : r.status_code ≠ 200) :
    (call_signing w s st f temp).result =
      .error (.signingError ("Posting to add-on signing failed "
        ++ r.reason))
    ∧ (call_signing w s st f temp).storage = st
    ∧ ∀ n, (call_signing w s st f temp).result ≠ .ok (some n) := by
  simp [call_signing, hep, horig, hext, hpost, hstatus]

/-- Witness for C5: the HTTP-500 world raises a `SigningError`
carrying the status reason and leaves the file untouched. -/
theorem non_200_raises_with_reason_witness :
    (⟨500, "INTERNAL SERVER ERROR", ""⟩ : HttpResponse).status_code ≠ 200
    ∧ ((call_signing w500 sBoth stAB fPub "t").result =
        .error (.signingError
          ("Posting to add-on signing failed " ++ "INTERNAL SERVER ERROR"))
      ∧ (call_signing w500 sBoth stAB fPub "t").storage = stAB
      ∧ ∀ n, (call_signing w500 sBoth stAB fPub "t").result ≠
          .ok (some n)) :=
  ⟨by decide,
    non_200_raises_with_reason w500 sBoth stAB fPub "t"
      "https://sv/1.0/sign_addon" [1, 2] "SIGS"
      ⟨500, "INTERNAL SERVER ERROR", ""⟩ rfl rfl rfl rfl (by decide)⟩

/-- C2: for every eligible artifact with public trust status and a
well-formed archive, when the signing service answers HTTP 200 with a
body whose `zigbert.rsa` field decodes to a certificate, `sign_file`
returns the serial number extracted from that certificate, replaces
the canonical file with the signed archive, and stores that serial
number on the record — the record update (last trace event) happening
only after the rename that replaces the file. -/
theorem public_success_signs_and_records (w : World) (s : Settings)
    (st : Storage) (f : FileObj) (temp : String) (orig : Bytes)
    (sigs content reason : String) (pkcs7 : Bytes) (serial : Nat)
    (signedBytes : Bytes)
    (helig : f.can_be_signed = true)
    (hstatus : f.status = STATUS_PUBLIC)
    (hserver : s.SIGNING_SERVER ≠ "")
    (horig : st f.file_path = some orig)
    (hext : w.extract orig = some sigs)
    (hpost : w.post (s.SIGNING_SERVER ++ "/1.0/sign_addon")
      s.SIGNING_SERVER_TIMEOUT (f.addon_slug ++ "-" ++ f.version_version)
      sigs = .response ⟨200, reason, content⟩)
    (hdec : w.decode_zigbert content = some pkcs7)
    (hser : w.get_serial pkcs7 = some serial)
    (hser0 : serial ≠ 0)
    (hsig : w.make_signed orig sigs pkcs7 = some signedBytes)
    (hfresh : temp ≠ f.file_path) :
    (sign_file w s st f temp).result = .ok (some serial)
    ∧ (sign_file w s st f temp).record = some serial
    ∧ (sign_file w s st f temp).storage f.file_path = some signedBytes
    ∧ (sign_file w s st f temp).events =
        [.extractAttempt,
          .networkCall (s.SIGNING_SERVER ++ "/1.0/sign_addon"),
          .writeTemp temp, .rename temp f.file_path,
          .updateRecord serial] := by
  have hep : get_endpoint s f.status =
      some (s.SIGNING_SERVER ++ "/1.0/sign_addon") := by
    simp [get_endpoint, hstatus, hserver]
  simp [sign_file, helig, call_signing, hep, horig, hext, hpost, hdec,
    hser, hser0, hsig, renameFile, setFile, Ne.symm hfresh]

/-- Witness for C2: the all-success world issues serial 42 for the
public file; its canonical path afterwards holds the signed archive
and the record holds 42, updated after the rename. -/
theorem public_success_signs_and_records_witness :
    fPub.can_be_signed = true
    ∧ (42 : Nat) ≠ 0
    ∧ ("t" : String) ≠ fPub.file_path
    ∧ ((sign_file wOK sBoth stAB fPub "t").result = .ok (some 42)
      ∧ (sign_file wOK sBoth stAB fPub "t").record = some 42
      ∧ (sign_file wOK sBoth stAB fPub "t").storage fPub.file_path =
          some [1, 2, 3]
      ∧ (sign_file wOK sBoth stAB fPub "t").events =
          [.extractAttempt, .networkCall ("https://sv" ++ "/1.0/sign_addon"),
            .writeTemp "t", .rename "t" fPub.file_path,
            .updateRecord 42]) :=
  ⟨rfl, by decide, by decide,
    public_success_signs_and_records wOK sBoth stAB fPub "t" [1, 2]
      "SIGS" "BODY" "OK" [9, 9] 42 [1, 2, 3] rfl rfl (by decide) rfl rfl
      rfl rfl rfl (by decide) rfl (by decide)⟩

/-- C1: for every artifact and every execution of `call_signing`, the
canonical file path only ever holds the original bytes or the fully
signed bytes: every failure leaves it holding exactly what it held
before, every write event targets only the temporary path, and the
only rename in the trace (the sole mutation of the canonical path) is
the single rename of the temporary file onto the canonical path. -/
theorem canonical_path_atomic (w : World) (s : Settings) (st : Storage)
    (f : FileObj) (temp : String) (hfresh : temp ≠ f.file_path) :
    (∀ e, (call_signing w s st f temp).result = .error e →
      (call_signing w s st f temp).storage f.file_path = st f.file_path)
    ∧ ((call_signing w s st f temp).storage f.file_path = st f.file_path
      ∨ ∃ serial signedBytes,
          (call_signing w s st f temp).result = .ok (some serial)
          ∧ (call_signing w s st f temp).storage f.file_path =
              some signedBytes
          ∧ ∃ orig sigs pkcs7, st f.file_path = some orig
              ∧ w.extract orig = some sigs
              ∧ w.make_signed orig sigs pkcs7 = some signedBytes)
    ∧ (∀ p, Event.writeTemp p ∈ (call_signing w s st f temp).events →
        p = temp)
    ∧ ((call_signing w s st f temp).events.filter Event.isRename = []
      ∨ (call_signing w s st f temp).events.filter Event.isRename =
          [Event.rename temp f.file_path]) := by
  cases hep : get_endpoint s f.status with
  | none => simp [call_signing, hep]
  | some ep =>
    cases horig : st f.file_path with
    | none => simp [call_signing, hep, horig, Event.isRename]
    | some orig =>
      cases hext : w.extract orig with
      | none => simp [call_signing, hep, horig, hext, Event.isRename]
      | some sigs =>
        cases hpost : w.post ep s.SIGNING_SERVER_TIMEOUT
            (f.addon_slug ++ "-" ++ f.version_version) sigs with
        | httpError a b =>
          simp [call_signing, hep, horig, hext, hpost, Event.isRename]
        | otherExn =>
          simp [call_signing, hep, horig, hext, hpost, Event.isRename]
        | response r =>
          by_cases hst : r.status_code = 200
          · cases hdec : w.decode_zigbert r.content with
            | none =>
              simp [call_signing, hep, horig, hext, hpost, hst, hdec,
                Event.isRename]
            | some pkcs7 =>
              cases hser : w.get_serial pkcs7 with
              | none =>
                simp [call_signing, hep, horig, hext, hpost, hst, hdec,
                  hser, Event.isRename]
              | some serial =>
                cases hsig : w.make_signed orig sigs pkcs7 with
                | none =>
                  simp [call_signing, hep, horig, hext, hpost, hst, hdec,
                    hser, hsig, Event.isRename]
                | some sb =>
                  have hred : call_signing w s st f temp =
                      ⟨.ok (some serial),
                        renameFile (setFile st temp sb) temp f.file_path,
                        [.extractAttempt, .networkCall ep, .writeTemp temp,
                          .rename temp f.file_path]⟩ := by
                    simp [call_signing, hep, horig, hext, hpost, hst,
                      hdec, hser, hsig]
                  rw [hred]
                  refine ⟨by simp, Or.inr ⟨serial, sb, rfl, ?_,
                      orig, sigs, pkcs7, rfl, hext, hsig⟩,
                    by simp, Or.inr (by simp [Event.isRename])⟩
                  simp [renameFile, setFile, Ne.symm hfresh]
          · simp [call_signing, hep, horig, hext, hpost, hst,
              Event.isRename]

/-- Witness for C1 at the all-success world: the freshness hypothesis
holds and every conjunct of the atomicity property is obtained for
the concrete run. -/
theorem canonical_path_atomic_witness :
    ("t" : String) ≠ fPub.file_path
    ∧ ((∀ e, (call_signing wOK sBoth stAB fPub "t").result = .error e →
        (call_signing wOK sBoth stAB fPub "t").storage fPub.file_path =
          stAB fPub.file_path)
      ∧ ((call_signing wOK sBoth stAB fPub "t").storage fPub.file_path =
          stAB fPub.file_path
        ∨ ∃ serial signedBytes,
            (call_signing wOK sBoth stAB fPub "t").result =
              .ok (some serial)
            ∧ (call_signing wOK sBoth stAB fPub "t").storage
                fPub.file_path = some signedBytes
            ∧ ∃ orig sigs pkcs7, stAB fPub.file_path = some orig
                ∧ wOK.extract orig = some sigs
                ∧ wOK.make_signed orig sigs pkcs7 = some signedBytes)
      ∧ (∀ p, Event.writeTemp p ∈
          (call_signing wOK sBoth stAB fPub "t").events → p = "t")
      ∧ ((call_signing wOK sBoth stAB fPub "t").events.filter
            Event.isRename = []
        ∨ (call_signing wOK sBoth stAB fPub "t").events.filter
            Event.isRename = [Event.rename "t" fPub.file_path])) :=
  ⟨by decide, canonical_path_atomic wOK sBoth stAB fPub "t" (by decide)⟩

/-- Counterexample to C3: in the version owning the two eligible
files `fPub` (pk 1) and `fPub2` (pk 2), the first file's extraction
failure ends the task at once — the trace shows the orchestrator was
invoked for pk 1 only, and the eligible remaining file pk 2 was never
attempted, contradicting the claim that a failure does not prevent
attempting the next artifact. -/
theorem failure_stops_iteration_cex :
    fPub2 ∈ vAB.all_files
    ∧ fPub2.can_be_signed = true
    ∧ (sign wBadArchive sBoth vAB ["t1", "t2"] stAB).result =
        .error (.signingError "Archive extraction failed. Bad archive?")
    ∧ (sign wBadArchive sBoth vAB ["t1", "t2"] stAB).events =
        [.signFileCall 1, .extractAttempt]
    ∧ Event.signFileCall fPub2.pk ∉
        (sign wBadArchive sBoth vAB ["t1", "t2"] stAB).events := by
  decide

/-- C3 as amended: when signing one eligible artifact fails, the
raised error propagates out of the task immediately — the loop's
outcome is exactly the failing file's outcome, independent of the
remaining artifacts, which are never attempted. -/
theorem failure_stops_iteration (w : World) (s : Settings)
    (st : Storage) (f : FileObj) (rest : List FileObj)
    (temps : List String) (e : PyError)
    (hfail : (sign_file w s st f (temps.headD "")).result = .error e) :
    sign_loop w s (f :: rest) temps st =
      ⟨.error e, (sign_file w s st f (temps.headD "")).storage,
        .signFileCall f.pk ::
          (sign_file w s st f (temps.headD "")).events⟩ := by
  simp only [sign_loop]
  rw [hfail]

/-- Witness for the amended C3 at the bad-archive world. -/
theorem failure_stops_iteration_witness :
    (sign_file wBadArchive sBoth stAB fPub (["t1", "t2"].headD "")).result
      = .error (.signingError "Archive extraction failed. Bad archive?")
    ∧ sign_loop wBadArchive sBoth (fPub :: [fPub2]) ["t1", "t2"] stAB =
        ⟨.error (.signingError "Archive extraction failed. Bad archive?"),
          (sign_file wBadArchive sBoth stAB fPub
            (["t1", "t2"].headD "")).storage,
          .signFileCall fPub.pk ::
            (sign_file wBadArchive sBoth stAB fPub
              (["t1", "t2"].headD "")).events⟩ :=
  ⟨by decide,
    failure_stops_iteration wBadArchive sBoth stAB fPub [fPub2]
      ["t1", "t2"]
      (.signingError "Archive extraction failed. Bad archive?")
      (by decide)⟩

/-- Counterexample to C6: for a version with zero files the task
raises `SigningError` with message `No file`, not `no files` as the
claim states. -/
theorem no_files_message_cex :
    (sign wOK sBoth vEmpty [] stAB).result =
      .error (.signingError "No file")
    ∧ (sign wOK sBoth vEmpty [] stAB).result ≠
        .error (.signingError "no files")
    ∧ (sign wOK sBoth vEmpty [] stAB).events = [] := by
  decide

/-- C6 as amended: for every version owning zero artifacts, the task
raises `SigningError` with message `No file` without contacting any
signing endpoint and without invoking the per-file orchestrator (the
event trace is empty) and without touching storage. -/
theorem no_files_raises (w : World) (s : Settings) (v : Version)
    (temps : List String) (st : Storage) (h : v.all_files = []) :
    (sign w s v temps st).result = .error (.signingError "No file")
    ∧ (sign w s v temps st).storage = st
    ∧ (sign w s v temps st).events = [] := by
  simp [sign, h]

/-- Witness for the amended C6 at the empty version. -/
theorem no_files_raises_witness :
    vEmpty.all_files = []
    ∧ ((sign wOK sBoth vEmpty [] stAB).result =
        .error (.signingError "No file")
      ∧ (sign wOK sBoth vEmpty [] stAB).storage = stAB
      ∧ (sign wOK sBoth vEmpty [] stAB).events = []) :=
  ⟨rfl, no_files_raises wOK sBoth vEmpty [] stAB rfl⟩

end Packaged
